import Mathlib

/-!
Verification of the Slack retrospective bot
(`slack_retro_bot_to_airtable.py`): a webhook handler that parses a slash
command, reads/writes retrospective items in a remote record store, and
formats Slack replies.

The Python code is shallowly embedded: pure helpers become Lean functions
on `String`/`List Char`; the remote record store (an external collaborator)
is modelled from the spec as a list of records with exact-match filtering;
the ambient effects (current UTC time, fresh record ids, create success)
are passed in as explicit parameters.  Python string primitives
(`str.strip`, `str.split`, `str.lower`, `str.capitalize`, `re.sub(' +', ' ', .)`)
are embedded as structurally recursive functions over `String.data` so that
all definitions evaluate by kernel reduction.
-/

/-! ## Python string primitives -/

/-- Whitespace as stripped by Python `str.strip()` (ASCII part). -/
def pyIsSpace (c : Char) : Bool :=
  c == ' ' || c == '\t' || c == '\n' || c == '\r' || c == '\x0b' || c == '\x0c'

/-- Embedding of Python `str.strip()`: drop whitespace from both ends. -/
def pyStrip (s : String) : String :=
  ⟨((s.data.dropWhile pyIsSpace).reverse.dropWhile pyIsSpace).reverse⟩

/-- Worker for `squeezeSpaces`; the flag records whether the previous
character was a space (in which case further spaces are dropped). -/
def squeezeAux : Bool → List Char → List Char
  | _, [] => []
  | prevSpace, c :: rest =>
    if c = ' ' then
      if prevSpace then squeezeAux true rest
      else ' ' :: squeezeAux true rest
    else c :: squeezeAux false rest

/-- Embedding of `re.sub(' +', ' ', s)`: collapse runs of spaces to one. -/
def squeezeSpaces (s : String) : String :=
  ⟨squeezeAux false s.data⟩

/-- Worker for `pySplitSpace`: split a character list at every space,
Python `str.split(' ')` style (empty pieces are kept). -/
def splitSpacesAux (cur : List Char) : List Char → List (List Char)
  | [] => [cur.reverse]
  | c :: rest =>
    if c = ' ' then cur.reverse :: splitSpacesAux [] rest
    else splitSpacesAux (c :: cur) rest

/-- Embedding of Python `s.split(' ')`. -/
def pySplitSpace (s : String) : List String :=
  (splitSpacesAux [] s.data).map String.mk

/-- Embedding of Python `sep.join(pieces)`. -/
def pyJoin (sep : String) : List String → String
  | [] => ""
  | [x] => x
  | x :: xs => x ++ sep ++ pyJoin sep xs

/-- Embedding of Python `str.lower()` (ASCII letters). -/
def pyLower (s : String) : String :=
  ⟨s.data.map Char.toLower⟩

/-- Embedding of Python `str.capitalize()`: first character upper-cased,
every remaining character lower-cased. -/
def pyCapitalize (s : String) : String :=
  match s.data with
  | [] => ""
  | c :: cs => ⟨c.toUpper :: cs.map Char.toLower⟩

/-- Embedding of Python `repr` of a list of strings, as produced by
`'...{}'.format(list_of_names)`. -/
def pyListRepr (l : List String) : String :=
  "[" ++ pyJoin ", " (l.map (fun s => "\x27" ++ s ++ "\x27")) ++ "]"

/-! ## Command keyword constants (`_GOOD_CMDS` .. `_ALL_CMDS`) -/

def goodCmds : List String := ["good"]

def badCmds : List String := ["bad"]

def tryCmds : List String := ["try"]

def categoryCmds : List String := goodCmds ++ badCmds ++ tryCmds

def newCmds : List String := ["new"]

def listCmds : List String := ["list"]

def helpCmds : List String := ["help", "?"]

def allCmds : List String := categoryCmds ++ newCmds ++ listCmds ++ helpCmds

def botName : String := "Retrospective Bot"

/-! ## Data model and the record-store collaborator -/

/-- Fields of a retrospective item record (`Category`, `Object`, `Creator`,
`Created At`, `Reviewed At`). -/
structure RetroFields where
  category : String
  object : String
  creator : String
  createdAt : String
  reviewedAt : Option String
deriving DecidableEq

/-- A stored record: an id assigned by the store plus its fields. -/
structure RetroRecord where
  id : String
  fields : RetroFields
deriving DecidableEq

/-- Modelled from the spec: the record store's current unreviewed view
("the set of items not yet marked reviewed"); the store client itself is
an external collaborator, treated as a black box that reflects the most
recent successful write. -/
def currentView (store : List RetroRecord) : List RetroRecord :=
  store.filter (fun r => r.fields.reviewedAt.isNone)

/-- Modelled from the spec: the store's evaluation of the duplicate-check
`get` ("any item in the current unreviewed view matching both category and
normalized object exactly").  The formula string actually sent is
`duplicateFilterFormula` below. -/
def matchingCurrentItems (store : List RetroRecord) (category object : String) :
    List RetroRecord :=
  (currentView store).filter
    (fun r => r.fields.category == category && r.fields.object == object)

/-- Modelled from the spec: the store's `update(table, id, fields)` call for
the sweep, setting the `Reviewed At` field of the record with the given id. -/
def updateRecord (store : List RetroRecord) (recId : String) (now : String) :
    List RetroRecord :=
  store.map (fun r =>
    if r.id == recId then { r with fields := { r.fields with reviewedAt := some now } }
    else r)

/-! ## Item Formatter (`_get_retrospective_items_attachments`) -/

/-- A Slack attachment block. -/
structure Attachment where
  title : String
  text : String
  color : String
deriving DecidableEq

/-- Lexicographic comparison of character lists by code point, the order
Python's `<` uses on strings. -/
def charListLt : List Char → List Char → Bool
  | _, [] => false
  | [], _ :: _ => true
  | a :: as, b :: bs =>
    if a < b then true
    else if b < a then false
    else charListLt as bs

/-- Python's `<` on strings (lexicographic by code point). -/
def pyStrLt (a b : String) : Bool :=
  charListLt a.data b.data

/-- Stable insertion by `Category`: the new element goes before the first
element whose category is not smaller.  `sortByCategory` below is the
embedding of Python's stable `sorted(items, key=category)`. -/
def insertByCategory (x : RetroRecord) : List RetroRecord → List RetroRecord
  | [] => [x]
  | y :: ys =>
    if pyStrLt y.fields.category x.fields.category then y :: insertByCategory x ys
    else x :: y :: ys

/-- Embedding of `sorted(retrospective_items, key=category)` (a stable sort
by the stored category string). -/
def sortByCategory : List RetroRecord → List RetroRecord
  | [] => []
  | x :: xs => insertByCategory x (sortByCategory xs)

/-- Worker for `groupRuns`: given the current run's first element `x`,
returns the rest of `x`'s run and the groups of the remainder. -/
def groupRunsAux (x : RetroRecord) :
    List RetroRecord → List RetroRecord × List (String × List RetroRecord)
  | [] => ([], [])
  | y :: ys =>
    let (run, groups) := groupRunsAux y ys
    if y.fields.category == x.fields.category then (y :: run, groups)
    else ([], (y.fields.category, y :: run) :: groups)

/-- Embedding of `itertools.groupby(items, key=category)`: consecutive
records with equal category form one group. -/
def groupRuns : List RetroRecord → List (String × List RetroRecord)
  | [] => []
  | x :: xs =>
    let (run, groups) := groupRunsAux x xs
    (x.fields.category, x :: run) :: groups

/-- Embedding of the dict `colors_by_category`; a lookup outside the three
keys is a Python `KeyError`, modelled as `none`. -/
def colorsByCategory (category : String) : Option String :=
  if category = "good" then some "good"
  else if category = "bad" then some "danger"
  else if category = "try" then some "warning"
  else none

/-- The `text` of one attachment: bulleted objects joined by blank lines. -/
def bulletText (items : List RetroRecord) : String :=
  pyJoin "\n\n" (items.map (fun item => "• " ++ item.fields.object))

/-- One attachment for one category group (`none` models the `KeyError` on
an unmapped category). -/
def mkAttachment (category : String) (group : List RetroRecord) : Option Attachment :=
  (colorsByCategory category).map
    (fun color => ⟨pyCapitalize category, bulletText group, color⟩)

/-- The list comprehension over the groups; `none` models the uncaught
`KeyError` raised on the first unmapped category. -/
def attachmentsOfGroups : List (String × List RetroRecord) → Option (List Attachment)
  | [] => some []
  | g :: gs =>
    match mkAttachment g.1 g.2 with
    | none => none
    | some a => (attachmentsOfGroups gs).map (fun rest => a :: rest)

/-- Embedding of `_get_retrospective_items_attachments`. -/
def getRetrospectiveItemsAttachments (items : List RetroRecord) :
    Option (List Attachment) :=
  attachmentsOfGroups (groupRuns (sortByCategory items))

/-- The records of `items` carrying exactly the stored category `c`, in
their original relative order (used to characterize the formatter). -/
def categoryItems (c : String) (items : List RetroRecord) : List RetroRecord :=
  items.filter (fun r => r.fields.category == c)

/-- One attachment block of the formatter's characterization: absent when
the group is empty. -/
def attachmentBlock (title color : String) (group : List RetroRecord) : List Attachment :=
  if group = [] then [] else [⟨title, bulletText group, color⟩]

/-- One group of the grouping characterization: absent when empty. -/
def optGroup (c : String) (l : List RetroRecord) : List (String × List RetroRecord) :=
  if l = [] then [] else [(c, l)]

/-! ## Record New Item (`_add_retrospective_item_and_get_response`) -/

/-- A handler-level response before JSON formatting: either a plain string
or a `(text, attachments)` pair, as in the Python code. -/
inductive BotResponse where
  | plain (text : String)
  | withAttachments (text : String) (attachments : List Attachment)
deriving DecidableEq

def reservedTermMessage (itemObject : String) : String :=
  "Sorry, but *" ++ botName ++ "* can\x27t save *" ++ itemObject ++
    "* because it\x27s a reserved term."

def alreadyAddedMessage : String :=
  "This retrospective item has already been added!"

def unableToSaveMessage : String :=
  "Sorry, but *" ++ botName ++ "* was unable to save the retrospective item."

/-- Embedding of `item_object.replace('"', '\"')`.  In Python the
replacement `'\"'` is just `'"'`, so each double quote is replaced by
itself. -/
def escapeObjectForFormula (s : String) : String :=
  ⟨s.data.map (fun c => if c = '"' then '"' else c)⟩

/-- The `filter_by_formula` string sent to the store by the duplicate
check: `AND(Category = "...", Object = "...")`. -/
def duplicateFilterFormula (category itemObject : String) : String :=
  "AND(Category = \"" ++ category ++ "\", Object = \"" ++
    escapeObjectForFormula itemObject ++ "\")"

/-- A correctly quoted exact-match formula, escaping each double quote of
the object as a backslash-quote; this follows the intent the escape in the
source aims at, for comparison with `duplicateFilterFormula`. -/
def correctEscape (s : String) : String :=
  ⟨s.data.flatMap (fun c => if c = '"' then ['\\', '"'] else [c])⟩

/-- The correctly quoted variant of `duplicateFilterFormula`. -/
def correctlyEscapedFilterFormula (category itemObject : String) : String :=
  "AND(Category = \"" ++ category ++ "\", Object = \"" ++
    correctEscape itemObject ++ "\")"

/-- Result of one Record-New-Item call: the user-visible response (`none`
models an uncaught exception), the fields passed to `create` when a create
call was issued, and the store afterwards. -/
structure AddResult where
  response : Option BotResponse
  createdFields : Option RetroFields
  newStore : List RetroRecord
deriving DecidableEq

/-- Embedding of `_add_retrospective_item_and_get_response`.  The store is
explicit; `createOk` tells whether the store's `create` returns a record;
`now` is the current UTC timestamp string; `freshId` the id the store
assigns.  The duplicate `get` uses the spec-modelled exact matching
`matchingCurrentItems` (the wire formula is `duplicateFilterFormula`). -/
def addRetrospectiveItemAndGetResponse (category itemObject userName : String)
    (store : List RetroRecord) (createOk : Bool) (now freshId : String) : AddResult :=
  if pyLower itemObject ∈ allCmds then
    ⟨some (.plain (reservedTermMessage itemObject)), none, store⟩
  else
    let itemObject := pyCapitalize itemObject
    let category := pyLower category
    let existingItem := matchingCurrentItems store category itemObject
    if ¬ existingItem.isEmpty then
      ⟨some (.plain alreadyAddedMessage), none, store⟩
    else if createOk then
      let fields : RetroFields := ⟨pyLower category, itemObject, userName, now, none⟩
      let record : RetroRecord := ⟨freshId, fields⟩
      match getRetrospectiveItemsAttachments [record] with
      | some atts => ⟨some (.withAttachments "New retrospective item:" atts),
          some fields, store ++ [record]⟩
      | none => ⟨none, some fields, store ++ [record]⟩
    else
      ⟨some (.plain unableToSaveMessage), none, store⟩

/-! ## List Items (`_get_retrospective_items_response`) -/

/-- Embedding of `_get_retrospective_items_response` (`none` models the
`KeyError` on an unmapped stored category). -/
def getRetrospectiveItemsResponse (store : List RetroRecord) : Option BotResponse :=
  let items := currentView store
  if items.isEmpty then some (.plain "No retrospective items yet.")
  else (getRetrospectiveItemsAttachments items).map
    (fun atts => .withAttachments "Retrospective items:" atts)

/-! ## Background Sweep (`_async_mark_retrospective_items_as_reviewed`) -/

/-- One follow-up POST to the callback URL.  `attachments = none` means the
JSON body carries no `attachments` key at all. -/
structure FollowUpPost where
  response_type : String
  text : String
  attachments : Option (List Attachment)
deriving DecidableEq

/-- Result of one sweep run: the follow-up posted (`none` models an
uncaught exception), the ids updated, and the store afterwards. -/
structure SweepResult where
  post : Option FollowUpPost
  updatedIds : List String
  newStore : List RetroRecord
deriving DecidableEq

/-- Embedding of `_async_mark_retrospective_items_as_reviewed`.  Note the
Python conditional-expression precedence in the final `text`: the source
line `'text': 'All ... reviewed!' + "\n..." if attachments else ''` parses
as `('All ... reviewed!' + "\n...") if attachments else ''`, so the text is
the empty string whenever `attachments` is empty. -/
def asyncMarkRetrospectiveItemsAsReviewed (store : List RetroRecord) (now : String) :
    SweepResult :=
  let items := currentView store
  if items.isEmpty then
    ⟨some ⟨"in_channel", "All retrospective were already marked as reviewed!", none⟩,
      [], store⟩
  else
    let newStore := items.foldl (fun s item => updateRecord s item.id now) store
    let remainingItems := currentView newStore
    match getRetrospectiveItemsAttachments remainingItems with
    | none => ⟨none, items.map (fun i => i.id), newStore⟩
    | some attachments =>
      ⟨some ⟨"in_channel",
          if attachments.isEmpty then ""
          else "All retrospective items marked as reviewed!" ++
            "\nHere are the remaining \x27try\x27 items to complete:",
          some attachments⟩,
        items.map (fun i => i.id), newStore⟩

/-! ## Webhook handler (`handle_slack_notification`) -/

/-- The three environment variables. -/
structure Config where
  slackRetroToken : Option String
  airtableRetroBaseId : Option String
  airtableRetroApiKey : Option String

/-- Python falsiness of an env variable: unset or the empty string. -/
def envMissing : Option String → Bool
  | none => true
  | some s => s == ""

/-- Embedding of the `_MISSING_ENV_VARIABLES` computation. -/
def missingEnvVariables (cfg : Config) : List String :=
  (if envMissing cfg.slackRetroToken then ["SLACK_RETRO_TOKEN"] else []) ++
  (if envMissing cfg.airtableRetroBaseId then ["AIRTABLE_RETRO_BASE_ID"] else []) ++
  (if envMissing cfg.airtableRetroApiKey then ["AIRTABLE_RETRO_API_KEY"] else [])

/-- Embedding of `_STEPS_TO_FINISH_SETUP`. -/
def stepsToFinishSetup (cfg : Config) : Option String :=
  if missingEnvVariables cfg ≠ [] then
    some ("Need to setup the following AWS Lambda function env variables:\n" ++
      pyListRepr (missingEnvVariables cfg))
  else none

/-- The form fields of the inbound Slack webhook request. -/
structure SlackForm where
  token : String
  user_name : String
  command : String
  response_url : String
  text : String

/-- Embedding of `_get_command_action_and_params`: split on single spaces,
case-fold the first token, re-join the rest. -/
def getCommandActionAndParams (commandText : String) : String × String :=
  match pySplitSpace commandText with
  | [] => ("", "")
  | a :: rest => (pyLower a, pyJoin " " rest)

/-- The parsed (action, params) of one request, lines 80-97 of the source:
strip and collapse the text; a category slash alias is itself the action,
otherwise split the text; coerce unrecognized actions to `help`. -/
def commandActionAndParams (slashCommand text : String) : String × String :=
  let fullText := squeezeSpaces (pyStrip text)
  let ap :=
    if slashCommand ∈ categoryCmds then (slashCommand, fullText)
    else getCommandActionAndParams fullText
  (if ap.1 ∈ allCmds then ap.1 else "help", ap.2)

/-- The JSON reply body built by `_format_json_response`. -/
structure JsonResponse where
  response_type : String
  text : String
  attachments : List Attachment
deriving DecidableEq

/-- Embedding of `_format_json_response`. -/
def formatJsonResponse (response : BotResponse) (inChannel : Bool) : JsonResponse :=
  match response with
  | .plain text =>
    ⟨if inChannel then "in_channel" else "ephemeral", text, []⟩
  | .withAttachments text atts =>
    ⟨if inChannel then "in_channel" else "ephemeral", text,
      if atts.isEmpty then [] else atts⟩

/-- Embedding of the static help message (lines 125-132). -/
def helpMessage (command : String) : String :=
  pyJoin "\n" [
    "*" ++ command ++ " good <item>* to save an item in the \"good\" list",
    "*" ++ command ++ " bad <item>* to save an item in the \"bad\" list",
    "*" ++ command ++ " try <item>* to save an item in the \"try\" list",
    "*" ++ command ++ " list* to see the different lists saved for the current sprint",
    "*" ++ command ++ " new* to start a fresh list for the new scrum sprint",
    "*" ++ command ++ " help* to see this message"]

/-- What the handler returns: the setup plain text, an HTTP abort, a JSON
reply, or an uncaught exception (also used for the unreachable fall-through
where the Python function returns `None`). -/
inductive HandlerResult where
  | plainText (body : String) (status : Nat)
  | abort (status : Nat)
  | json (response : JsonResponse) (status : Nat)
  | internalError
deriving DecidableEq

/-- The handler's result together with its effects: the store afterwards
and whether the background sweep was triggered. -/
structure HandlerOutcome where
  result : HandlerResult
  newStore : List RetroRecord
  sweepTriggered : Bool
deriving DecidableEq

/-- Embedding of `handle_slack_notification`.  The store, the store's
create outcome, the current time and the fresh record id are explicit
parameters; triggering the async sweep is recorded as an effect flag. -/
def handleSlackNotification (cfg : Config) (form : SlackForm)
    (store : List RetroRecord) (createOk : Bool) (now freshId : String) :
    HandlerOutcome :=
  match stepsToFinishSetup cfg with
  | some steps => ⟨.plainText steps 200, store, false⟩
  | none =>
    if form.token ≠ cfg.slackRetroToken.getD "" then ⟨.abort 401, store, false⟩
    else
      let userName := form.user_name
      let slashCommand := form.command
      let commandText := squeezeSpaces (pyStrip form.text)
      let ap := commandActionAndParams slashCommand form.text
      let commandAction := ap.1
      let commandParams := ap.2
      if commandAction ∈ categoryCmds then
        let r := addRetrospectiveItemAndGetResponse commandAction commandParams
          userName store createOk now freshId
        match r.response with
        | some response => ⟨.json (formatJsonResponse response true) 200, r.newStore, false⟩
        | none => ⟨.internalError, r.newStore, false⟩
      else if commandAction ∈ listCmds then
        match getRetrospectiveItemsResponse store with
        | some response => ⟨.json (formatJsonResponse response true) 200, store, false⟩
        | none => ⟨.internalError, store, false⟩
      else if commandAction ∈ newCmds then
        if commandParams ≠ "" then
          ⟨.json (formatJsonResponse
            (.plain ("Oops, did you mean \"/retro good " ++ commandParams ++ "\"?")) true)
            200, store, false⟩
        else
          ⟨.json (formatJsonResponse
            (.plain "Marking all current retrospective items as reviewed...") true)
            200, store, true⟩
      else if commandAction ∈ helpCmds ∨ commandText = "" ∨ commandText = " " then
        ⟨.json (formatJsonResponse (.plain (helpMessage slashCommand)) false) 200,
          store, false⟩
      else
        ⟨.internalError, store, false⟩

/-- A sample unreviewed record used by concrete witnesses. -/
def sampleRecord (i c o : String) : RetroRecord :=
  ⟨i, ⟨c, o, "alice", "t0", none⟩⟩

set_option maxRecDepth 4000

theorem charToLower_toUpper (c : Char) : c.toUpper.toLower = c.toLower := by
  by_cases h : 97 ≤ c.toNat ∧ c.toNat ≤ 122
  · have key : ∀ m, m < 123 → 97 ≤ m →
        (Char.ofNat m).toUpper.toLower = (Char.ofNat m).toLower := by decide
    have hc := (Char.ofNat_toNat c).symm
    rw [hc]
    exact key c.toNat (Nat.lt_succ_of_le h.2) h.1
  · have hu : c.toUpper = c := by
      unfold Char.toUpper
      rw [if_neg h]
    rw [hu]

theorem charToLower_idem (c : Char) : c.toLower.toLower = c.toLower := by
  by_cases h : 65 ≤ c.toNat ∧ c.toNat ≤ 90
  · have key : ∀ m, m < 91 → 65 ≤ m →
        (Char.ofNat m).toLower.toLower = (Char.ofNat m).toLower := by decide
    have hc := (Char.ofNat_toNat c).symm
    rw [hc]
    exact key c.toNat (Nat.lt_succ_of_le h.2) h.1
  · have hl : c.toLower = c := by
      unfold Char.toLower
      rw [if_neg h]
    rw [hl]
    exact hl

theorem pyLower_pyLower (s : String) : pyLower (pyLower s) = pyLower s := by
  obtain ⟨l⟩ := s
  simp only [pyLower, List.map_map]
  congr 1
  exact List.map_congr_left (fun c _ => charToLower_idem c)

theorem pyLower_pyCapitalize (s : String) : pyLower (pyCapitalize s) = pyLower s := by
  obtain ⟨l⟩ := s
  cases l with
  | nil => rfl
  | cons c cs =>
    simp only [pyCapitalize, pyLower, List.map_cons, List.map_map]
    congr 2
    · exact charToLower_toUpper c
    · exact List.map_congr_left (fun d _ => charToLower_idem d)

theorem mem_categoryItems {c : String} {l : List RetroRecord} {y : RetroRecord}
    (hy : y ∈ categoryItems c l) : y.fields.category = c := by
  simp only [categoryItems, List.mem_filter, beq_iff_eq] at hy
  exact hy.2

theorem insertByCategory_front (x : RetroRecord) (l : List RetroRecord)
    (h : ∀ y ∈ l, pyStrLt y.fields.category x.fields.category = false) :
    insertByCategory x l = x :: l := by
  cases l with
  | nil => rfl
  | cons y ys => simp [insertByCategory, h y (List.mem_cons_self y ys)]

theorem insertByCategory_append (x : RetroRecord) (l₁ l₂ : List RetroRecord)
    (h : ∀ y ∈ l₁, pyStrLt y.fields.category x.fields.category = true) :
    insertByCategory x (l₁ ++ l₂) = l₁ ++ insertByCategory x l₂ := by
  induction l₁ with
  | nil => rfl
  | cons y ys ih =>
    simp only [List.cons_append, insertByCategory, h y (List.mem_cons_self y ys),
      if_true, List.cons.injEq, true_and]
    exact ih (fun z hz => h z (List.mem_cons_of_mem y hz))

theorem sortByCategory_eq (items : List RetroRecord)
    (h : ∀ r ∈ items, r.fields.category ∈ (["good", "bad", "try"] : List String)) :
    sortByCategory items =
      categoryItems "bad" items ++ categoryItems "good" items ++ categoryItems "try" items := by
  induction items with
  | nil => rfl
  | cons x xs ih =>
    have hx := h x (List.mem_cons_self x xs)
    have ihe := ih (fun r hr => h r (List.mem_cons_of_mem x hr))
    simp only [List.mem_cons, List.not_mem_nil, or_false] at hx
    have hcb : ∀ y ∈ categoryItems "bad" xs, y.fields.category = "bad" :=
      fun y hy => mem_categoryItems hy
    have hcg : ∀ y ∈ categoryItems "good" xs, y.fields.category = "good" :=
      fun y hy => mem_categoryItems hy
    have hct : ∀ y ∈ categoryItems "try" xs, y.fields.category = "try" :=
      fun y hy => mem_categoryItems hy
    rcases hx with hx | hx | hx
    · -- category "good": walk past the "bad" block, insert at front of "good" ++ "try"
      have e1 : insertByCategory x (categoryItems "bad" xs ++
          (categoryItems "good" xs ++ categoryItems "try" xs)) =
          categoryItems "bad" xs ++ insertByCategory x
            (categoryItems "good" xs ++ categoryItems "try" xs) := by
        refine insertByCategory_append x _ _ (fun y hy => ?_)
        rw [hcb y hy, hx]; decide
      have e2 : insertByCategory x (categoryItems "good" xs ++ categoryItems "try" xs) =
          x :: (categoryItems "good" xs ++ categoryItems "try" xs) := by
        refine insertByCategory_front x _ (fun y hy => ?_)
        rcases List.mem_append.mp hy with hy' | hy'
        · rw [hcg y hy', hx]; decide
        · rw [hct y hy', hx]; decide
      simp only [sortByCategory, ihe, List.append_assoc, e1, e2]
      simp only [categoryItems, List.filter_cons, hx]
      simp
    · -- category "bad": insert at the very front
      have e2 : insertByCategory x (categoryItems "bad" xs ++
          (categoryItems "good" xs ++ categoryItems "try" xs)) =
          x :: (categoryItems "bad" xs ++ (categoryItems "good" xs ++ categoryItems "try" xs)) := by
        refine insertByCategory_front x _ (fun y hy => ?_)
        rcases List.mem_append.mp hy with hy' | hy'
        · rw [hcb y hy', hx]; decide
        · rcases List.mem_append.mp hy' with hy'' | hy''
          · rw [hcg y hy'', hx]; decide
          · rw [hct y hy'', hx]; decide
      simp only [sortByCategory, ihe, List.append_assoc, e2]
      simp only [categoryItems, List.filter_cons, hx]
      simp
    · -- category "try": walk past "bad" ++ "good", insert at front of "try"
      have e1 : insertByCategory x ((categoryItems "bad" xs ++ categoryItems "good" xs) ++
          categoryItems "try" xs) =
          (categoryItems "bad" xs ++ categoryItems "good" xs) ++
            insertByCategory x (categoryItems "try" xs) := by
        refine insertByCategory_append x _ _ (fun y hy => ?_)
        rcases List.mem_append.mp hy with hy' | hy'
        · rw [hcb y hy', hx]; decide
        · rw [hcg y hy', hx]; decide
      have e2 : insertByCategory x (categoryItems "try" xs) =
          x :: categoryItems "try" xs := by
        refine insertByCategory_front x _ (fun y hy => ?_)
        rw [hct y hy, hx]; decide
      simp only [sortByCategory, ihe, e1, e2]
      simp only [categoryItems, List.filter_cons, hx]
      simp

theorem groupRunsAux_notHead (x z : RetroRecord) (zs : List RetroRecord)
    (h : (z.fields.category == x.fields.category) = false) :
    groupRunsAux x (z :: zs) = ([], groupRuns (z :: zs)) := by
  simp only [groupRunsAux, groupRuns, h]
  rfl

theorem groupRunsAux_run (c : String) (x : RetroRecord) (xs l₂ : List RetroRecord)
    (hx : x.fields.category = c) (hxs : ∀ y ∈ xs, y.fields.category = c)
    (hl₂ : ∀ y ∈ l₂, y.fields.category ≠ c) :
    groupRunsAux x (xs ++ l₂) = (xs, groupRuns l₂) := by
  induction xs generalizing x with
  | nil =>
    cases l₂ with
    | nil => rfl
    | cons z zs =>
      refine groupRunsAux_notHead x z zs ?_
      rw [hx]
      exact beq_eq_false_iff_ne.mpr (hl₂ z (List.mem_cons_self z zs))
  | cons y ys ih =>
    have hy : y.fields.category = c := hxs y (List.mem_cons_self y ys)
    have ihy := ih y hy (fun z hz => hxs z (List.mem_cons_of_mem y hz))
    simp only [List.cons_append, groupRunsAux, ihy]
    rw [hy, hx]
    simp [ihy]

theorem groupRuns_run_append (c : String) (l₁ l₂ : List RetroRecord) (hne : l₁ ≠ [])
    (h₁ : ∀ y ∈ l₁, y.fields.category = c) (h₂ : ∀ y ∈ l₂, y.fields.category ≠ c) :
    groupRuns (l₁ ++ l₂) = (c, l₁) :: groupRuns l₂ := by
  cases l₁ with
  | nil => exact absurd rfl hne
  | cons x xs =>
    have hx : x.fields.category = c := h₁ x (List.mem_cons_self x xs)
    simp only [List.cons_append, groupRuns,
      groupRunsAux_run c x xs l₂ hx (fun y hy => h₁ y (List.mem_cons_of_mem x hy)) h₂, hx]

theorem mkAttachment_bad (l : List RetroRecord) :
    mkAttachment "bad" l = some ⟨"Bad", bulletText l, "danger"⟩ := rfl

theorem mkAttachment_good (l : List RetroRecord) :
    mkAttachment "good" l = some ⟨"Good", bulletText l, "good"⟩ := rfl

theorem mkAttachment_try (l : List RetroRecord) :
    mkAttachment "try" l = some ⟨"Try", bulletText l, "warning"⟩ := rfl

theorem groupRuns_blocks (B G T : List RetroRecord)
    (hB : ∀ y ∈ B, y.fields.category = "bad")
    (hG : ∀ y ∈ G, y.fields.category = "good")
    (hT : ∀ y ∈ T, y.fields.category = "try") :
    groupRuns (B ++ G ++ T) =
      optGroup "bad" B ++ optGroup "good" G ++ optGroup "try" T := by
  have hnil : ∀ cc : String, ∀ y ∈ ([] : List RetroRecord), y.fields.category ≠ cc :=
    fun cc y hy => absurd hy (List.not_mem_nil y)
  have hGT : ∀ y ∈ G ++ T, y.fields.category ≠ "bad" := by
    intro y hy
    rcases List.mem_append.mp hy with hy2 | hy2
    · rw [hG y hy2]; decide
    · rw [hT y hy2]; decide
  have hT2 : ∀ y ∈ T, y.fields.category ≠ "good" := by
    intro y hy; rw [hT y hy]; decide
  have stepT : groupRuns T = optGroup "try" T := by
    by_cases hTe : T = []
    · subst hTe; rfl
    · rw [show groupRuns T = groupRuns (T ++ []) by rw [List.append_nil],
        groupRuns_run_append "try" T [] hTe hT (hnil "try")]
      simp [optGroup, hTe, groupRuns]
  have stepGT : groupRuns (G ++ T) = optGroup "good" G ++ optGroup "try" T := by
    by_cases hGe : G = []
    · subst hGe; simpa [optGroup] using stepT
    · rw [groupRuns_run_append "good" G T hGe hG hT2, stepT]
      simp [optGroup, hGe]
  by_cases hBe : B = []
  · subst hBe; simpa [optGroup] using stepGT
  · rw [List.append_assoc, groupRuns_run_append "bad" B (G ++ T) hBe hB hGT, stepGT]
    simp [optGroup, hBe]

theorem attachmentsOfGroups_blocks (B G T : List RetroRecord) :
    attachmentsOfGroups (optGroup "bad" B ++ optGroup "good" G ++ optGroup "try" T) =
      some (attachmentBlock "Bad" "danger" B ++ attachmentBlock "Good" "good" G ++
        attachmentBlock "Try" "warning" T) := by
  by_cases hBe : B = [] <;> by_cases hGe : G = [] <;> by_cases hTe : T = [] <;>
    simp [optGroup, attachmentBlock, attachmentsOfGroups, hBe, hGe, hTe,
      mkAttachment_bad, mkAttachment_good, mkAttachment_try]

/-- Claim C3: for every sequence of retrospective items whose stored categories all lie in good/bad/try, the Item Formatter returns one attachment per non-empty category, ordered by category name ascending (bad, good, try), titled with the capitalized category, colored by the fixed mapping good-good, bad-danger, try-warning, and carrying the items of that category in their original relative order (the filter preserves input order). -/
theorem C3_item_formatter (items : List RetroRecord)
    (h : ∀ r ∈ items, r.fields.category ∈ (["good", "bad", "try"] : List String)) :
    getRetrospectiveItemsAttachments items =
      some (attachmentBlock "Bad" "danger" (categoryItems "bad" items) ++
        attachmentBlock "Good" "good" (categoryItems "good" items) ++
        attachmentBlock "Try" "warning" (categoryItems "try" items)) := by
  rw [getRetrospectiveItemsAttachments, sortByCategory_eq items h,
    groupRuns_blocks _ _ _ (fun y hy => mem_categoryItems hy)
      (fun y hy => mem_categoryItems hy) (fun y hy => mem_categoryItems hy),
    attachmentsOfGroups_blocks]

/-- Witness for C3 at the spec's example: categories try,good,bad,good give attachment titles Bad, Good, Try with the two good items in original order. -/
theorem C3_witness :
    (∀ r ∈ [sampleRecord "1" "try" "T1", sampleRecord "2" "good" "G1", sampleRecord "3" "bad" "B1",
        sampleRecord "4" "good" "G2"],
      r.fields.category ∈ (["good", "bad", "try"] : List String)) ∧
    getRetrospectiveItemsAttachments
      [sampleRecord "1" "try" "T1", sampleRecord "2" "good" "G1", sampleRecord "3" "bad" "B1",
        sampleRecord "4" "good" "G2"] =
      some [⟨"Bad", "• B1", "danger"⟩, ⟨"Good", "• G1\n\n• G2", "good"⟩,
        ⟨"Try", "• T1", "warning"⟩] :=
  ⟨by decide, (C3_item_formatter _ (by decide)).trans (by decide)⟩

/-- Claim C4: for every category action and every object text whose case-folded form equals a recognized command keyword, Record New Item returns the rejection message naming the bot and the offending text, issues no create call, and leaves the store unchanged. -/
theorem C4_reserved_term_rejected (category itemObject userName : String)
    (store : List RetroRecord) (createOk : Bool) (now freshId : String)
    (hcat : category ∈ categoryCmds) (hobj : pyLower itemObject ∈ allCmds) :
    addRetrospectiveItemAndGetResponse category itemObject userName store createOk
        now freshId =
      ⟨some (.plain (reservedTermMessage itemObject)), none, store⟩ ∧
    reservedTermMessage itemObject =
      "Sorry, but *" ++ botName ++ "* can\x27t save *" ++ itemObject ++
        "* because it\x27s a reserved term." := by
  constructor
  · simp [addRetrospectiveItemAndGetResponse, hobj]
  · rfl

/-- Witness for C4 at category good and object text List. -/
theorem C4_witness :
    ("good" ∈ categoryCmds) ∧ (pyLower "List" ∈ allCmds) ∧
    addRetrospectiveItemAndGetResponse "good" "List" "alice" [] true "t0" "rec1" =
      ⟨some (.plain (reservedTermMessage "List")), none, []⟩ :=
  ⟨by decide, by decide,
    (C4_reserved_term_rejected "good" "List" "alice" [] true "t0" "rec1"
      (by decide) (by decide)).1⟩

/-- Claim C2 (amended): for every incoming command whose invoking slash alias is not itself a recognized category keyword, if the whitespace-collapsed, trimmed text is empty, the parsed action is the help action. -/
theorem C2_empty_text_yields_help (slashCommand text : String)
    (hcmd : slashCommand ∉ categoryCmds)
    (htext : squeezeSpaces (pyStrip text) = "") :
    (commandActionAndParams slashCommand text).1 = "help" := by
  simp only [commandActionAndParams, htext, if_neg hcmd]
  decide

/-- Counterexample to C2 as stated: with invoking alias good and whitespace-only text, the parsed action is good, not help. -/
theorem C2_counterexample :
    squeezeSpaces (pyStrip " ") = "" ∧ (commandActionAndParams "good" " ").1 = "good" ∧
      (commandActionAndParams "good" " ").1 ≠ "help" := by decide

/-- Witness for amended C2 at alias /retro and whitespace-only text. -/
theorem C2_witness :
    ("/retro" ∉ categoryCmds) ∧ squeezeSpaces (pyStrip "   ") = "" ∧
      (commandActionAndParams "/retro" "   ").1 = "help" :=
  ⟨by decide, by decide, C2_empty_text_yields_help "/retro" "   " (by decide) (by decide)⟩

/-- Claim C9: when the initial fetch of the current unreviewed view is empty, the sweep posts one broadcast follow-up saying everything was already reviewed, with no attachments key, issues no update calls, and leaves the store unchanged. -/
theorem C9_sweep_empty_view (store : List RetroRecord) (now : String)
    (h : currentView store = []) :
    asyncMarkRetrospectiveItemsAsReviewed store now =
      ⟨some ⟨"in_channel", "All retrospective were already marked as reviewed!", none⟩,
        [], store⟩ := by
  simp [asyncMarkRetrospectiveItemsAsReviewed, h]

/-- Witness for C9 on a store whose only record is already reviewed. -/
theorem C9_witness :
    currentView [⟨"r1", ⟨"good", "X", "alice", "t0", some "t1"⟩⟩] = [] ∧
    asyncMarkRetrospectiveItemsAsReviewed
        [⟨"r1", ⟨"good", "X", "alice", "t0", some "t1"⟩⟩] "t2" =
      ⟨some ⟨"in_channel", "All retrospective were already marked as reviewed!", none⟩,
        [], [⟨"r1", ⟨"good", "X", "alice", "t0", some "t1"⟩⟩]⟩ :=
  ⟨by decide, C9_sweep_empty_view _ _ (by decide)⟩

/-- Claim C1 (code bug evidence): a sweep whose initial fetch holds one unreviewed item updates it, re-fetches an empty view, and then posts a follow-up whose text is the empty string (with an empty attachment list) - not a completion message - because the Python conditional expression makes the whole text conditional on the attachments being non-empty. -/
theorem C1_sweep_posts_empty_text :
    asyncMarkRetrospectiveItemsAsReviewed
        [⟨"rec1", ⟨"good", "Pairing went well", "alice", "t0", none⟩⟩] "t1" =
      ⟨some ⟨"in_channel", "", some []⟩, ["rec1"],
        [⟨"rec1", ⟨"good", "Pairing went well", "alice", "t0", some "t1"⟩⟩]⟩ := by decide

/-- Claim C8: when any required configuration value is missing the handler answers HTTP 200 with the setup-instructions text and performs no processing; with full configuration and a token that does not equal the secret it aborts with HTTP 401 and performs no processing. -/
theorem C8_config_and_auth (cfg : Config) (form : SlackForm) (store : List RetroRecord)
    (createOk : Bool) (now freshId : String) :
    (missingEnvVariables cfg ≠ [] →
      handleSlackNotification cfg form store createOk now freshId =
        ⟨.plainText ("Need to setup the following AWS Lambda function env variables:\n" ++
            pyListRepr (missingEnvVariables cfg)) 200, store, false⟩) ∧
    (missingEnvVariables cfg = [] → form.token ≠ cfg.slackRetroToken.getD "" →
      handleSlackNotification cfg form store createOk now freshId =
        ⟨.abort 401, store, false⟩) := by
  constructor
  · intro h
    simp [handleSlackNotification, stepsToFinishSetup, h]
  · intro h htok
    simp [handleSlackNotification, stepsToFinishSetup, h, htok]

/-- Witness for C8: a configuration missing the Slack token, and a wrong-token request against a full configuration. -/
theorem C8_witness :
    (missingEnvVariables ⟨none, some "b", some "k"⟩ ≠ []) ∧
    handleSlackNotification ⟨none, some "b", some "k"⟩ ⟨"s", "alice", "/retro", "u", "help"⟩
        [] true "t" "r" =
      ⟨.plainText ("Need to setup the following AWS Lambda function env variables:\n" ++
          pyListRepr (missingEnvVariables ⟨none, some "b", some "k"⟩)) 200, [], false⟩ ∧
    (missingEnvVariables ⟨some "s", some "b", some "k"⟩ = []) ∧
    handleSlackNotification ⟨some "s", some "b", some "k"⟩
        ⟨"WRONG", "alice", "/retro", "u", "help"⟩ [] true "t" "r" =
      ⟨.abort 401, [], false⟩ :=
  ⟨by decide,
    (C8_config_and_auth ⟨none, some "b", some "k"⟩ ⟨"s", "alice", "/retro", "u", "help"⟩
      [] true "t" "r").1 (by decide),
    by decide,
    (C8_config_and_auth ⟨some "s", some "b", some "k"⟩
      ⟨"WRONG", "alice", "/retro", "u", "help"⟩ [] true "t" "r").2 (by decide) (by decide)⟩

theorem addRetro_reserved (category itemObject userName : String)
    (store : List RetroRecord) (createOk : Bool) (now freshId : String)
    (h1 : pyLower itemObject ∈ allCmds) :
    addRetrospectiveItemAndGetResponse category itemObject userName store createOk
        now freshId =
      ⟨some (.plain (reservedTermMessage itemObject)), none, store⟩ := by
  simp [addRetrospectiveItemAndGetResponse, h1]

theorem addRetro_duplicate (category itemObject userName : String)
    (store : List RetroRecord) (createOk : Bool) (now freshId : String)
    (h1 : pyLower itemObject ∉ allCmds)
    (h2 : matchingCurrentItems store (pyLower category) (pyCapitalize itemObject) ≠ []) :
    addRetrospectiveItemAndGetResponse category itemObject userName store createOk
        now freshId =
      ⟨some (.plain alreadyAddedMessage), none, store⟩ := by
  simp only [addRetrospectiveItemAndGetResponse, if_neg h1]
  rw [if_pos]
  simpa [List.isEmpty_iff] using h2

theorem addRetro_create_fail (category itemObject userName : String)
    (store : List RetroRecord) (now freshId : String)
    (h1 : pyLower itemObject ∉ allCmds)
    (h2 : matchingCurrentItems store (pyLower category) (pyCapitalize itemObject) = []) :
    addRetrospectiveItemAndGetResponse category itemObject userName store false
        now freshId =
      ⟨some (.plain unableToSaveMessage), none, store⟩ := by
  simp only [addRetrospectiveItemAndGetResponse, if_neg h1, h2]
  rw [if_neg (by simp), if_neg (by simp)]

theorem addRetro_create_path (category itemObject userName : String)
    (store : List RetroRecord) (now freshId : String)
    (h1 : pyLower itemObject ∉ allCmds)
    (h2 : matchingCurrentItems store (pyLower category) (pyCapitalize itemObject) = []) :
    (addRetrospectiveItemAndGetResponse category itemObject userName store true
        now freshId).createdFields =
      some ⟨pyLower (pyLower category), pyCapitalize itemObject, userName, now, none⟩ ∧
    (addRetrospectiveItemAndGetResponse category itemObject userName store true
        now freshId).newStore =
      store ++ [⟨freshId,
        ⟨pyLower (pyLower category), pyCapitalize itemObject, userName, now, none⟩⟩] := by
  simp only [addRetrospectiveItemAndGetResponse, if_neg h1, h2]
  rw [if_neg (by simp), if_pos trivial]
  refine ⟨?_, ?_⟩ <;> (split <;> rfl)

theorem addRetro_created_eq (category itemObject userName : String)
    (store : List RetroRecord) (createOk : Bool) (now freshId : String) (f : RetroFields)
    (h : (addRetrospectiveItemAndGetResponse category itemObject userName store createOk
        now freshId).createdFields = some f) :
    f = ⟨pyLower (pyLower category), pyCapitalize itemObject, userName, now, none⟩ := by
  by_cases h1 : pyLower itemObject ∈ allCmds
  · rw [addRetro_reserved category itemObject userName store createOk now freshId h1] at h
    simp at h
  · by_cases h2 : matchingCurrentItems store (pyLower category) (pyCapitalize itemObject) = []
    · cases createOk with
      | false =>
        rw [addRetro_create_fail category itemObject userName store now freshId h1 h2] at h
        simp at h
      | true =>
        rw [(addRetro_create_path category itemObject userName store now freshId h1 h2).1] at h
        simp only [Option.some.injEq] at h
        exact h.symm
    · rw [addRetro_duplicate category itemObject userName store createOk now freshId h1 h2] at h
      simp at h

/-- Claim C6: whenever a create call is issued, the object field passed to the store is the input text capitalized (first character upper-cased, the rest lower-cased) and the category field is the lower-cased category. -/
theorem C6_create_normalization (category itemObject userName : String)
    (store : List RetroRecord) (createOk : Bool) (now freshId : String) (f : RetroFields)
    (h : (addRetrospectiveItemAndGetResponse category itemObject userName store createOk
        now freshId).createdFields = some f) :
    f.object = pyCapitalize itemObject ∧ f.category = pyLower category := by
  have he := addRetro_created_eq category itemObject userName store createOk now freshId f h
  constructor
  · rw [he]
  · rw [he]
    exact pyLower_pyLower category

/-- Witness for C6 at object london trip (and the ALREADY CAPS normalization example). -/
theorem C6_witness :
    (addRetrospectiveItemAndGetResponse "good" "london trip" "alice" [] true "t0"
        "r1").createdFields = some ⟨"good", "London trip", "alice", "t0", none⟩ ∧
    pyCapitalize "london trip" = "London trip" ∧
    pyCapitalize "ALREADY CAPS" = "Already caps" ∧
    ((⟨"good", "London trip", "alice", "t0", none⟩ : RetroFields).object =
        pyCapitalize "london trip" ∧
      (⟨"good", "London trip", "alice", "t0", none⟩ : RetroFields).category =
        pyLower "good") :=
  ⟨by decide, by decide, by decide,
    C6_create_normalization "good" "london trip" "alice" [] true "t0" "r1" _ (by decide)⟩

theorem addRetro_created_isSome_facts (category itemObject userName : String)
    (store : List RetroRecord) (now freshId : String)
    (h : (addRetrospectiveItemAndGetResponse category itemObject userName store true
        now freshId).createdFields.isSome = true) :
    pyLower itemObject ∉ allCmds ∧
    matchingCurrentItems store (pyLower category) (pyCapitalize itemObject) = [] ∧
    (addRetrospectiveItemAndGetResponse category itemObject userName store true
        now freshId).newStore =
      store ++ [⟨freshId,
        ⟨pyLower (pyLower category), pyCapitalize itemObject, userName, now, none⟩⟩] := by
  by_cases h1 : pyLower itemObject ∈ allCmds
  · rw [addRetro_reserved category itemObject userName store true now freshId h1] at h
    simp at h
  · by_cases h2 : matchingCurrentItems store (pyLower category) (pyCapitalize itemObject) = []
    · exact ⟨h1, h2, (addRetro_create_path category itemObject userName store now freshId h1 h2).2⟩
    · rw [addRetro_duplicate category itemObject userName store true now freshId h1 h2] at h
      simp at h

theorem matchingCurrentItems_append (s₁ s₂ : List RetroRecord) (c o : String) :
    matchingCurrentItems (s₁ ++ s₂) c o =
      matchingCurrentItems s₁ c o ++ matchingCurrentItems s₂ c o := by
  simp [matchingCurrentItems, currentView, List.filter_append]

/-- Claim C5: after a first submission whose create succeeded, a second submission of the same category and the same case-normalized object text (with no intervening sweep) returns the already-added message, issues no create call, and leaves the store unchanged. -/
theorem C5_second_submission_rejected (store : List RetroRecord)
    (category obj₁ obj₂ u₁ u₂ : String) (createOk₂ : Bool) (now₁ now₂ id₁ id₂ : String)
    (hcat : category ∈ categoryCmds)
    (hnorm : pyCapitalize obj₂ = pyCapitalize obj₁)
    (hfirst : (addRetrospectiveItemAndGetResponse category obj₁ u₁ store true now₁
        id₁).createdFields.isSome = true) :
    addRetrospectiveItemAndGetResponse category obj₂ u₂
        (addRetrospectiveItemAndGetResponse category obj₁ u₁ store true now₁ id₁).newStore
        createOk₂ now₂ id₂ =
      ⟨some (.plain alreadyAddedMessage), none,
        (addRetrospectiveItemAndGetResponse category obj₁ u₁ store true now₁
          id₁).newStore⟩ := by
  obtain ⟨h1, h2, h3⟩ :=
    addRetro_created_isSome_facts category obj₁ u₁ store now₁ id₁ hfirst
  have hobj2 : pyLower obj₂ = pyLower obj₁ := by
    rw [← pyLower_pyCapitalize obj₂, hnorm, pyLower_pyCapitalize]
  have h1' : pyLower obj₂ ∉ allCmds := by
    rw [hobj2]; exact h1
  have hsingle : matchingCurrentItems
      [⟨id₁, ⟨pyLower (pyLower category), pyCapitalize obj₁, u₁, now₁, none⟩⟩]
      (pyLower category) (pyCapitalize obj₁) =
      [⟨id₁, ⟨pyLower (pyLower category), pyCapitalize obj₁, u₁, now₁, none⟩⟩] := by
    simp [matchingCurrentItems, currentView, List.filter, pyLower_pyLower]
  have hmatch : matchingCurrentItems
      ((addRetrospectiveItemAndGetResponse category obj₁ u₁ store true now₁ id₁).newStore)
      (pyLower category) (pyCapitalize obj₂) ≠ [] := by
    rw [h3, hnorm, matchingCurrentItems_append, h2, hsingle]
    simp
  exact addRetro_duplicate category obj₂ u₂ _ createOk₂ now₂ id₂ h1' hmatch

/-- Witness for C5: submitting Retro then retro in category good. -/
theorem C5_witness :
    ("good" ∈ categoryCmds) ∧ pyCapitalize "retro" = pyCapitalize "Retro" ∧
    (addRetrospectiveItemAndGetResponse "good" "Retro" "alice" [] true "t1"
        "r1").createdFields.isSome = true ∧
    addRetrospectiveItemAndGetResponse "good" "retro" "bob"
        (addRetrospectiveItemAndGetResponse "good" "Retro" "alice" [] true "t1"
          "r1").newStore true "t2" "r2" =
      ⟨some (.plain alreadyAddedMessage), none,
        (addRetrospectiveItemAndGetResponse "good" "Retro" "alice" [] true "t1"
          "r1").newStore⟩ :=
  ⟨by decide, by decide, by decide,
    C5_second_submission_rejected [] "good" "Retro" "retro" "alice" "bob" true
      "t1" "t2" "r1" "r2" (by decide) (by decide) (by decide)⟩

theorem formatJsonResponse_response_type (r : BotResponse) (b : Bool) :
    (formatJsonResponse r b).response_type = if b then "in_channel" else "ephemeral" := by
  cases r <;> cases b <;> rfl

theorem commandAction_mem_allCmds (s t : String) :
    (commandActionAndParams s t).1 ∈ allCmds := by
  simp only [commandActionAndParams]
  split <;> split <;> first | assumption | decide

theorem category_not_help {a : String} (h : a ∈ categoryCmds) : a ∉ helpCmds := by
  have h2 : a ∈ ["good", "bad", "try"] := by
    simpa [categoryCmds, goodCmds, badCmds, tryCmds] using h
  fin_cases h2 <;> decide

theorem list_not_help {a : String} (h : a ∈ listCmds) : a ∉ helpCmds := by
  have h2 : a ∈ ["list"] := by simpa [listCmds] using h
  fin_cases h2 <;> decide

theorem new_not_help {a : String} (h : a ∈ newCmds) : a ∉ helpCmds := by
  have h2 : a ∈ ["new"] := by simpa [newCmds] using h
  fin_cases h2 <;> decide

theorem mem_help_of_not_others {a : String} (hall : a ∈ allCmds)
    (h1 : a ∉ categoryCmds) (h2 : a ∉ listCmds) (h3 : a ∉ newCmds) : a ∈ helpCmds := by
  simp only [allCmds, List.mem_append] at hall
  tauto

/-- Claim C7: every JSON reply of the handler is ephemeral exactly when the resolved action is a help action; all other actions (category, list, both variants of new) are replied to in_channel. -/
theorem C7_help_is_ephemeral (cfg : Config) (form : SlackForm) (store : List RetroRecord)
    (createOk : Bool) (now freshId : String) (response : JsonResponse) (status : Nat)
    (hjson : (handleSlackNotification cfg form store createOk now freshId).result =
      .json response status) :
    response.response_type =
      if (commandActionAndParams form.command form.text).1 ∈ helpCmds then "ephemeral"
      else "in_channel" := by
  cases hsteps : stepsToFinishSetup cfg with
  | some msg =>
    simp only [handleSlackNotification, hsteps] at hjson
    exact HandlerResult.noConfusion hjson
  | none =>
    simp only [handleSlackNotification, hsteps] at hjson
    by_cases htok : form.token ≠ cfg.slackRetroToken.getD ""
    · rw [if_pos htok] at hjson
      dsimp only at hjson
      exact HandlerResult.noConfusion hjson
    · rw [if_neg htok] at hjson
      by_cases hc : (commandActionAndParams form.command form.text).1 ∈ categoryCmds
      · rw [if_pos hc] at hjson
        rw [if_neg (category_not_help hc)]
        cases hr : (addRetrospectiveItemAndGetResponse
            (commandActionAndParams form.command form.text).1
            (commandActionAndParams form.command form.text).2
            form.user_name store createOk now freshId).response with
        | none =>
          rw [hr] at hjson
          dsimp only at hjson
          exact HandlerResult.noConfusion hjson
        | some resp =>
          rw [hr] at hjson
          dsimp only at hjson
          injection hjson with hA hB
          rw [← hA, formatJsonResponse_response_type]
          rfl
      · rw [if_neg hc] at hjson
        by_cases hl : (commandActionAndParams form.command form.text).1 ∈ listCmds
        · rw [if_pos hl] at hjson
          rw [if_neg (list_not_help hl)]
          cases hr : getRetrospectiveItemsResponse store with
          | none =>
            rw [hr] at hjson
            dsimp only at hjson
            exact HandlerResult.noConfusion hjson
          | some resp =>
            rw [hr] at hjson
            dsimp only at hjson
            injection hjson with hA hB
            rw [← hA, formatJsonResponse_response_type]
            rfl
        · rw [if_neg hl] at hjson
          by_cases hn : (commandActionAndParams form.command form.text).1 ∈ newCmds
          · rw [if_pos hn] at hjson
            rw [if_neg (new_not_help hn)]
            by_cases hp : (commandActionAndParams form.command form.text).2 ≠ ""
            · rw [if_pos hp] at hjson
              dsimp only at hjson
              injection hjson with hA hB
              rw [← hA, formatJsonResponse_response_type]
              rfl
            · rw [if_neg hp] at hjson
              dsimp only at hjson
              injection hjson with hA hB
              rw [← hA, formatJsonResponse_response_type]
              rfl
          · rw [if_neg hn] at hjson
            have hh : (commandActionAndParams form.command form.text).1 ∈ helpCmds :=
              mem_help_of_not_others (commandAction_mem_allCmds form.command form.text)
                hc hl hn
            rw [if_pos (Or.inl hh)] at hjson
            rw [if_pos hh]
            dsimp only at hjson
            injection hjson with hA hB
            rw [← hA, formatJsonResponse_response_type]
            rfl

/-- Witness for C7 at a help request, whose reply is ephemeral. -/
theorem C7_witness :
    (⟨"ephemeral", helpMessage "/retro", []⟩ : JsonResponse).response_type =
      (if (commandActionAndParams "/retro" "help").1 ∈ helpCmds then "ephemeral"
       else "in_channel") :=
  C7_help_is_ephemeral ⟨some "s", some "b", some "k"⟩ ⟨"s", "alice", "/retro", "u", "help"⟩
    [] true "t" "r" ⟨"ephemeral", helpMessage "/retro", []⟩ 200 (by decide)

theorem escapeObjectForFormula_id (s : String) : escapeObjectForFormula s = s := by
  obtain ⟨l⟩ := s
  simp only [escapeObjectForFormula]
  congr 1
  exact (List.map_congr_left (fun c _ => by by_cases h : c = '"' <;> simp [h])).trans
    (List.map_id l)

theorem str_data_append (a b : String) : (a ++ b).data = a.data ++ b.data := rfl

theorem correctEscape_data_length (l : List Char) :
    (l.flatMap (fun c => if c = '"' then ['\\', '"'] else [c])).length =
      l.length + l.countP (fun c => c == '"') := by
  induction l with
  | nil => rfl
  | cons c cs ih =>
    by_cases h : c = '"' <;>
      simp [h, List.flatMap_cons, ih, List.countP_cons] <;> omega

/-- Claim C10: the escape applied to the object before embedding it into the duplicate-check filter formula is the identity on strings, so for every object containing a double quote the formula differs from the correctly escaped exact-match formula. -/
theorem C10_escape_is_identity :
    (∀ s : String, escapeObjectForFormula s = s) ∧
    (∀ category itemObject : String, '"' ∈ itemObject.data →
      duplicateFilterFormula category itemObject ≠
        correctlyEscapedFilterFormula category itemObject) := by
  refine ⟨escapeObjectForFormula_id, ?_⟩
  intro category itemObject hq heq
  have hlen : (duplicateFilterFormula category itemObject).data.length =
      (correctlyEscapedFilterFormula category itemObject).data.length := by rw [heq]
  simp only [duplicateFilterFormula, correctlyEscapedFilterFormula,
    escapeObjectForFormula_id, correctEscape, str_data_append, List.length_append,
    correctEscape_data_length] at hlen
  have hcount : 0 < itemObject.data.countP (fun c => c == '"') :=
    List.countP_pos_iff.mpr ⟨'"', hq, rfl⟩
  omega

/-- Witness for C10 at an object containing double quotes. -/
theorem C10_witness :
    escapeObjectForFormula "say \"hi\"" = "say \"hi\"" ∧
    duplicateFilterFormula "good" "say \"hi\"" ≠
      correctlyEscapedFilterFormula "good" "say \"hi\"" :=
  ⟨C10_escape_is_identity.1 _, C10_escape_is_identity.2 "good" _ (by decide)⟩
